import Mathlib

/-!
Verification of the QuintoAndar discovery-and-enrichment pipeline
(`src/scraper-v3.ts`, `src/config.ts`, `src/core.ts`).

The TypeScript source is shallowly embedded:

* JavaScript numbers are modelled by `ℚ` (the grid arithmetic only uses
  values and operations whose float64 evaluation is exact at the claimed
  inputs; the general theorems are statements about exact arithmetic);
* `Set<string>` is modelled by a `List String` updated with `List.insert`
  (insert-if-absent, exactly `Set.add`);
* network responses are supplied by oracles (`Nat → …`), one value per
  request, so that every possible sequence of remote behaviours is covered;
* code that throws is modelled by explicit outcome data: a detail-fetch
  HTTP error is a `DetailResponse.httpError` (caught inside
  `fetchPropertyDetail`, which returns `null`/`none`), and a throw from the
  ingestion sink (`sendToCoreService` rethrows on failure) is a `Bool` flag
  consulted only after a successful fetch, mirroring the `try`-block order.
-/

namespace QuintoAndar

/-! ## Detail fetch (`fetchPropertyDetail`, scraper-v3.ts lines 123–181 and 576–622)

The remote yellow-pages endpoint can: throw inside axios (timeout, 5xx,
connection reset — all land in the `catch`), return a payload without hits,
or return a first hit `_id`.  The function's `catch` logs and returns
`null`; empty hits also return `null`; otherwise the property record is
returned (we keep only its `id`, the single field the pipeline state
reads). -/

inductive DetailResponse where
  | httpError
  | emptyHits
  | hit (pid : String)
deriving DecidableEq, Repr

def fetchPropertyDetail : DetailResponse → Option String
  | .httpError => none
  | .emptyHits => none
  | .hit pid => some pid

/-! ## Enrichment retry loop (scraper-v3.ts lines 243–299 and 679–735)

Both scrapers run, per listing id:

```ts
if (this.processedIds.has(id)) continue;
let retries = 0; const maxRetries = 3; let success = false;
while (retries <= maxRetries && !success) {
  try {
    const property = await this.fetchPropertyDetail(id);
    if (property) {
      this.processedIds.add(property.id);
      const standardized = transformToStandard(property);
      result.scraped++;
      result.properties.push(standardized);
      if (config.apiKey) await sendToCoreService({...});   // may throw
      ...
    }
    success = true;
    ...
  } catch (error) {
    retries++;
    if (retries > maxRetries) { result.failed++; ... } else { backoff }
  }
}
```

An attempt's behaviour is a pair: the `DetailResponse` the fetch sees and
whether the sink call throws (`false` everywhere models the
no-`apiKey` mode, where `sendToCoreService` is never called).  The state
carries an extra ghost field `attempts` counting loop iterations (i.e.
detail-fetch attempts); it is an observation for the claims, not part of
the source state. -/

structure RunState where
  processedIds : List String
  scraped : Nat
  failed : Nat
  attempts : Nat
deriving DecidableEq, Repr

def initState : RunState := ⟨[], 0, 0, 0⟩

def maxRetries : Nat := 3

def enrichGo (f : Nat → DetailResponse × Bool) (retries : Nat) (st : RunState) : RunState :=
  if h : retries ≤ maxRetries then
    let st1 : RunState := { st with attempts := st.attempts + 1 }
    match fetchPropertyDetail (f retries).1 with
    | none => st1
    | some pid =>
      let st2 : RunState :=
        { st1 with processedIds := st1.processedIds.insert pid, scraped := st1.scraped + 1 }
      if (f retries).2 then
        if retries + 1 > maxRetries then { st2 with failed := st2.failed + 1 }
        else enrichGo f (retries + 1) st2
      else st2
  else st
termination_by maxRetries + 1 - retries
decreasing_by simp only [maxRetries] at *; omega

/-- One full enrichment of one id: the `while` loop entered at `retries = 0`. -/
def enrichId (f : Nat → DetailResponse × Bool) (st : RunState) : RunState :=
  enrichGo f 0 st

/-- The per-id `for` loop of Phase 2: skip ids already processed, enrich the
rest.  The oracle gives each id its own attempt behaviours. -/
def processIds (oracle : String → Nat → DetailResponse × Bool)
    (ids : List String) (st : RunState) : RunState :=
  ids.foldl (fun st id => if id ∈ st.processedIds then st else enrichId (oracle id) st) st

/-- Summary counters of `ScraperResult` (total/scraped/failed; the
`properties` array is omitted — no claim reads it). -/
structure EnrichResult where
  total : Nat
  scraped : Nat
  failed : Nat
deriving DecidableEq, Repr

/-- `QuintoAndarGeoGridScraper.fetchAllDetails` (lines 664–744):
`result.total` is the size of the discovery set, then the retry loop runs
over `Array.from(this.allListingIds)` starting from fresh counters. -/
def fetchAllDetails (oracle : String → Nat → DetailResponse × Bool)
    (allListingIds : List String) : EnrichResult :=
  let st := processIds oracle allListingIds initState
  ⟨allListingIds.length, st.scraped, st.failed⟩

/-! ## Deduplication (scraper-v3.ts lines 556–564)

```ts
const newIds = collectedIds.filter(id => !this.allListingIds.has(id));
newIds.forEach(id => this.allListingIds.add(id));
...
return newIds.length;
```
-/

def addNewIds (store : List String) (collected : List String) : List String × Nat :=
  let newIds := collected.filter (fun id => !(store.contains id))
  (newIds.foldl (fun s id => s.insert id) store, newIds.length)

/-! ## Paging driver (scraper-v3.ts lines 524–571, `scrapeCell`)

One page response of the coordinates endpoint: the hit ids and the
authoritative `hits.total.value` for the region. -/

structure Page where
  ids : List String
  total : Nat
deriving DecidableEq, Repr

/-- The `while (offset < firstPage.total)` loop: fetches at `offset`,
`offset + pageSize`, …  Returns the (offset, page ids) pairs in fetch
order. -/
def pageLoop (pages : Nat → Page) (pageSize total : Nat) (hP : 0 < pageSize)
    (offset : Nat) : List (Nat × List String) :=
  if offset < total then
    (offset, (pages offset).ids) :: pageLoop pages pageSize total hP (offset + pageSize)
  else []
termination_by total - offset

/-- Observations of one `scrapeCell` run: the count it returns
(`newIds.length`), the updated discovery set, the offsets fetched (ghost)
and the accumulated `collectedIds` (ghost). -/
structure CellResult where
  newCount : Nat
  store : List String
  offsets : List Nat
  collected : List String
deriving DecidableEq, Repr

/-- `QuintoAndarGeoGridScraper.scrapeCell`: fetch page 0; if its reported
total is 0 return 0 immediately (`collectedIds` is still empty and the
discovery set untouched); else page while `offset < firstPage.total`,
append each page's ids, then run the filter-and-add deduplication step. -/
def scrapeCell (pages : Nat → Page) (store : List String) : CellResult :=
  let pageSize : Nat := 100
  let firstPage := pages 0
  if firstPage.total = 0 then ⟨0, store, [0], []⟩
  else
    let rest := pageLoop pages pageSize firstPage.total (by omega) pageSize
    let collected := firstPage.ids ++ (rest.map (·.2)).flatten
    let r := addNewIds store collected
    ⟨r.2, r.1, 0 :: rest.map (·.1), collected⟩

/-! ## Grid partitioner (scraper-v3.ts lines 399–472)

`generateGrid` is written against the constants `BRAZIL_BOUNDS` and
`GRID_SIZE`; we embed the body parameterized by the bounds and the cell
size (the spec's `GridPartitioner.generateGrid(bounds, cellSizeDegrees)`
contract) and define the source's constants separately.  `Math.ceil` on
the (positive, for valid bounds) step counts is `Int.ceil` followed by
`Int.toNat`. -/

structure Bounds where
  north : ℚ
  south : ℚ
  east : ℚ
  west : ℚ
deriving DecidableEq, Repr

structure Viewport where
  north : ℚ
  south : ℚ
  east : ℚ
  west : ℚ
deriving DecidableEq, Repr

structure GridCell where
  lat : ℚ
  lng : ℚ
  viewport : Viewport
  index : Nat
  total : Nat
deriving DecidableEq, Repr

def BRAZIL_BOUNDS : Bounds :=
  { north := 527/100, south := -3375/100, east := -3479/100, west := -7399/100 }

def GRID_SIZE : ℚ := 1/2

/-- Values taken by a `for (let v = start; v < stop; v += step)` loop head
(exact arithmetic). -/
def gridSteps (stop step : ℚ) (hstep : 0 < step) (start : ℚ) : List ℚ :=
  if start < stop then start :: gridSteps stop step hstep (start + step) else []
termination_by (⌈(stop - start) / step⌉).toNat
decreasing_by
  have h1 : stop - (start + step) = (stop - start) - step := by ring
  have h2 : ((stop - start) - step) / step = (stop - start) / step - 1 := by
    rw [sub_div, div_self hstep.ne']
  have h3 : (0:ℚ) < (stop - start) / step := div_pos (by linarith) hstep
  have h4 : 0 < ⌈(stop - start) / step⌉ := Int.ceil_pos.mpr h3
  rw [h1, h2, Int.ceil_sub_one]
  omega

/-- `generateGrid`: the nested lat/lng loops, each cell carrying its
centre (`lat + GRID_SIZE/2`), its viewport `[lat, lat+size] × [lng, lng+size]`,
its 1-based `++index` and the precomputed `totalCells = latSteps * lngSteps`. -/
def generateGrid (b : Bounds) (size : ℚ) (hs : 0 < size) : List GridCell :=
  let latSteps := (⌈(b.north - b.south) / size⌉).toNat
  let lngSteps := (⌈(b.east - b.west) / size⌉).toNat
  let totalCells := latSteps * lngSteps
  let pairs := (gridSteps b.north size hs b.south).flatMap
    (fun lat => (gridSteps b.east size hs b.west).map (fun lng => (lat, lng)))
  pairs.enum.map (fun p =>
    { lat := p.2.1 + size / 2
      lng := p.2.2 + size / 2
      viewport := { north := p.2.1 + size, south := p.2.1, east := p.2.2 + size, west := p.2.2 }
      index := p.1 + 1
      total := totalCells })

/-! ## City table and fallback (`config.ts` lines 132–183, scraper-v3.ts lines 16–36 and 65–72) -/

structure CityCoordinates where
  lat : ℚ
  lng : ℚ
  viewport : Viewport
deriving DecidableEq, Repr

def CITY_COORDS : List (String × CityCoordinates) :=
  [("sao-paulo-sp-brasil",
    ⟨-23.55052, -46.633309, ⟨-23.4, -23.75, -46.3, -46.85⟩⟩),
   ("rio-de-janeiro-rj-brasil",
    ⟨-22.9068, -43.1729, ⟨-22.75, -23.1, -43.0, -43.8⟩⟩),
   ("belo-horizonte-mg-brasil",
    ⟨-19.9167, -43.9345, ⟨-19.75, -20.05, -43.8, -44.1⟩⟩),
   ("curitiba-pr-brasil",
    ⟨-25.4284, -49.2733, ⟨-25.3, -25.6, -49.15, -49.4⟩⟩),
   ("porto-alegre-rs-brasil",
    ⟨-30.0346, -51.2177, ⟨-29.9, -30.2, -51.0, -51.35⟩⟩),
   ("brasilia-df-brasil",
    ⟨-15.7942, -47.8822, ⟨-15.6, -16.0, -47.7, -48.1⟩⟩),
   ("salvador-ba-brasil",
    ⟨-12.9714, -38.5014, ⟨-12.85, -13.1, -38.35, -38.65⟩⟩),
   ("fortaleza-ce-brasil",
    ⟨-3.7172, -38.5433, ⟨-3.6, -3.9, -38.4, -38.7⟩⟩),
   ("recife-pe-brasil",
    ⟨-8.0476, -34.877, ⟨-7.95, -8.15, -34.8, -35.0⟩⟩),
   ("campinas-sp-brasil",
    ⟨-22.9099, -47.0626, ⟨-22.8, -23.0, -46.9, -47.2⟩⟩)]

def ALL_CITIES : List String :=
  ["americana-sp", "aparecida-de-goiania-go", "barueri-sp", "belford-roxo-rj",
   "belo-horizonte-mg", "betim-mg", "brasilia-df", "brumadinho-mg",
   "campinas-sp", "canoas-rs", "carapicuiba-sp", "contagem-mg",
   "cotia-sp", "curitiba-pr", "diadema-sp", "duque-de-caxias-rj",
   "embu-das-artes-sp", "ferraz-de-vasconcelos-sp", "florianopolis-sc", "goiania-go",
   "guaruja-sp", "guarulhos-sp", "hortolandia-sp", "indaiatuba-sp",
   "itabirito-mg", "itaquaquecetuba-sp", "jacarei-sp", "jundiai-sp",
   "lagoa-santa-mg", "maua-sp", "mesquita-rj", "mogi-das-cruzes-sp",
   "nilopolis-rj", "niteroi-rj", "nova-iguacu-rj", "nova-lima-mg",
   "novo-hamburgo-rs", "osasco-sp", "paulinia-sp", "pinhais-pr",
   "poa-sp", "porto-alegre-rs", "praia-grande-sp", "ribeirao-das-neves-mg",
   "ribeirao-pires-sp", "ribeirao-preto-sp", "rio-de-janeiro-rj", "sabara-mg",
   "salvador-ba", "santana-de-parnaiba-sp", "santo-andre-sp", "santos-sp",
   "sao-bernardo-do-campo-sp", "sao-caetano-do-sul-sp", "sao-goncalo-rj", "sao-jose-dos-campos-sp",
   "sao-jose-dos-pinhais-pr", "sao-jose-sc", "sao-leopoldo-rs", "sao-paulo-sp",
   "sao-vicente-sp", "sorocaba-sp", "sumare-sp", "suzano-sp",
   "taboao-da-serra-sp", "taubate-sp", "uberlandia-mg", "valinhos-sp",
   "varzea-paulista-sp", "vespasiano-mg", "viamao-rs", "vinhedo-sp",
   "votorantim-sp"]

/-- `QuintoAndarScraperV3.getCityInfo`: use `CITY_COORDS[slug + '-brasil']`
when present, otherwise default to São Paulo's entry.  The São Paulo key is
statically in the table, so the source's unchecked index always hits; we
return the `Option` of the lookup. -/
def getCityInfo (slug : String) : Option CityCoordinates :=
  match CITY_COORDS.lookup (slug ++ "-brasil") with
  | some c => some c
  | none => CITY_COORDS.lookup "sao-paulo-sp-brasil"

/-! ## Helper lemmas about the enrichment loop -/

theorem insert_insert_self (l : List String) (a : String) :
    (l.insert a).insert a = l.insert a :=
  List.insert_of_mem (List.mem_insert_self a l)

/-- Single loop iteration, null detail: nothing is recorded and the loop
exits (`success = true`). -/
theorem enrichGo_none (f : Nat → DetailResponse × Bool) (r : Nat) (st : RunState)
    (hr : r ≤ maxRetries) (hf : fetchPropertyDetail (f r).1 = none) :
    enrichGo f r st = { st with attempts := st.attempts + 1 } := by
  rw [enrichGo]
  simp only [hr, dite_true, hf]

/-- Single loop iteration, detail fetched and no throw: the id is recorded
processed and the loop exits. -/
theorem enrichGo_ok (f : Nat → DetailResponse × Bool) (r : Nat) (st : RunState) (pid : String)
    (hr : r ≤ maxRetries) (hf : fetchPropertyDetail (f r).1 = some pid)
    (hs : (f r).2 = false) :
    enrichGo f r st =
      { st with attempts := st.attempts + 1,
                processedIds := st.processedIds.insert pid,
                scraped := st.scraped + 1 } := by
  rw [enrichGo]
  simp only [hr, dite_true, hf, hs, Bool.false_eq_true, if_false]

/-- Single loop iteration, detail fetched but the sink throws with the
retry budget not yet exhausted: state is mutated and the loop re-enters at
`retries + 1`. -/
theorem enrichGo_err_retry (f : Nat → DetailResponse × Bool) (r : Nat) (st : RunState)
    (pid : String) (hr2 : r + 1 ≤ maxRetries)
    (hf : fetchPropertyDetail (f r).1 = some pid) (hs : (f r).2 = true) :
    enrichGo f r st =
      enrichGo f (r + 1)
        { st with attempts := st.attempts + 1,
                  processedIds := st.processedIds.insert pid,
                  scraped := st.scraped + 1 } := by
  rw [enrichGo]
  simp only [show r ≤ maxRetries by omega, dite_true, hf, hs, if_true,
    show ¬(r + 1 > maxRetries) by omega, if_false]

/-- Single loop iteration, detail fetched but the sink throws with the
budget exhausted: the failed counter is incremented and the loop exits. -/
theorem enrichGo_err_last (f : Nat → DetailResponse × Bool) (r : Nat) (st : RunState)
    (pid : String) (hr : r ≤ maxRetries) (hlast : maxRetries < r + 1)
    (hf : fetchPropertyDetail (f r).1 = some pid) (hs : (f r).2 = true) :
    enrichGo f r st =
      { st with attempts := st.attempts + 1,
                processedIds := st.processedIds.insert pid,
                scraped := st.scraped + 1,
                failed := st.failed + 1 } := by
  rw [enrichGo]
  simp only [hr, dite_true, hf, hs, if_true, hlast, if_true]

/-- The loop makes at most `maxRetries + 1 - r` further fetch attempts. -/
theorem enrichGo_attempts_le (f : Nat → DetailResponse × Bool) :
    ∀ r st, (enrichGo f r st).attempts ≤ st.attempts + (maxRetries + 1 - r) := by
  suffices key : ∀ fuel r st, maxRetries + 1 - r = fuel →
      (enrichGo f r st).attempts ≤ st.attempts + (maxRetries + 1 - r) by
    intro r st; exact key _ r st rfl
  intro fuel
  induction fuel using Nat.strong_induction_on with
  | _ fuel ih =>
    intro r st hfuel
    by_cases hr : r ≤ maxRetries
    · cases hf : fetchPropertyDetail (f r).1 with
      | none => rw [enrichGo_none f r st hr hf]; dsimp only; omega
      | some pid =>
        cases hs : (f r).2 with
        | false =>
          rw [enrichGo_ok f r st pid hr hf hs]
          dsimp only
          omega
        | true =>
          by_cases hr2 : r + 1 ≤ maxRetries
          · rw [enrichGo_err_retry f r st pid hr2 hf hs]
            have := ih (maxRetries + 1 - (r + 1)) (by omega) (r + 1)
              { st with attempts := st.attempts + 1,
                        processedIds := st.processedIds.insert pid,
                        scraped := st.scraped + 1 } rfl
            dsimp only at this
            omega
          · rw [enrichGo_err_last f r st pid hr (by omega) hf hs]
            dsimp only
            omega
    · rw [enrichGo]
      simp only [hr, dite_false]
      omega

/-- The failed counter is incremented at most once per id. -/
theorem enrichGo_failed_le (f : Nat → DetailResponse × Bool) :
    ∀ r st, (enrichGo f r st).failed ≤ st.failed + 1 := by
  suffices key : ∀ fuel r st, maxRetries + 1 - r = fuel →
      (enrichGo f r st).failed ≤ st.failed + 1 by
    intro r st; exact key _ r st rfl
  intro fuel
  induction fuel using Nat.strong_induction_on with
  | _ fuel ih =>
    intro r st hfuel
    by_cases hr : r ≤ maxRetries
    · cases hf : fetchPropertyDetail (f r).1 with
      | none => rw [enrichGo_none f r st hr hf]; dsimp only; omega
      | some pid =>
        cases hs : (f r).2 with
        | false => rw [enrichGo_ok f r st pid hr hf hs]; dsimp only; omega
        | true =>
          by_cases hr2 : r + 1 ≤ maxRetries
          · rw [enrichGo_err_retry f r st pid hr2 hf hs]
            have := ih (maxRetries + 1 - (r + 1)) (by omega) (r + 1)
              { st with attempts := st.attempts + 1,
                        processedIds := st.processedIds.insert pid,
                        scraped := st.scraped + 1 } rfl
            dsimp only at this
            omega
          · rw [enrichGo_err_last f r st pid hr (by omega) hf hs]
    · rw [enrichGo]
      simp only [hr, dite_false]
      omega

/-! ## Claim C1 — retry bound -/

/-- Claim C1, counterexample.  Oracle: the sink throws on attempts 0, 1 and
2 and succeeds on attempt 3.  The id has then failed exactly `max = 3`
consecutive times, yet the code does NOT transition it to `failed`
(`failed = 0`) and a 4th enrichment attempt IS made (`attempts = 4`,
and that 4th attempt succeeds), refuting the claim at this input. -/
theorem c1_counterexample :
    (enrichId (fun n => if n < 3 then (.hit "X", true) else (.hit "X", false))
        initState).failed = 0
    ∧ (enrichId (fun n => if n < 3 then (.hit "X", true) else (.hit "X", false))
        initState).attempts = 4 := by
  constructor <;>
    simp [enrichId, enrichGo, fetchPropertyDetail, maxRetries, initState, List.insert]

/-- Claim C1, amended: an id whose enrichment attempt throws on every try is
attempted `maxRetries + 1 = 4` times (not 3); after the 4th consecutive
failure it transitions to the terminal failed state with the failed counter
incremented exactly once, and no 5th attempt is ever made (the loop makes
at most 4 fetch attempts for any behaviour whatsoever). -/
theorem c1_retry_bound (f : Nat → DetailResponse × Bool) (pid : String) (st : RunState)
    (h : ∀ n, n ≤ maxRetries → f n = (.hit pid, true)) :
    enrichId f st =
      { st with processedIds := st.processedIds.insert pid,
                scraped := st.scraped + 4,
                failed := st.failed + 1,
                attempts := st.attempts + 4 }
    ∧ ∀ (g : Nat → DetailResponse × Bool) (st' : RunState),
        (enrichId g st').attempts ≤ st'.attempts + (maxRetries + 1) := by
  refine ⟨?_, fun g st' => by simpa using enrichGo_attempts_le g 0 st'⟩
  rw [enrichId,
    enrichGo_err_retry f 0 _ pid (by decide) (by rw [h 0 (by decide)]; rfl)
      (by rw [h 0 (by decide)]),
    enrichGo_err_retry f 1 _ pid (by decide) (by rw [h 1 (by decide)]; rfl)
      (by rw [h 1 (by decide)]),
    enrichGo_err_retry f 2 _ pid (by decide) (by rw [h 2 (by decide)]; rfl)
      (by rw [h 2 (by decide)]),
    enrichGo_err_last f 3 _ pid (by decide) (by decide)
      (by rw [h 3 (by decide)]; rfl) (by rw [h 3 (by decide)])]
  dsimp only
  simp only [RunState.mk.injEq]
  and_intros <;> first | omega | simp [insert_insert_self]

/-- Claim C1 witness: the amended statement evaluated on the all-throwing
oracle from the empty starting state. -/
theorem c1_retry_bound_witness :
    enrichId (fun _ => (.hit "X", true)) initState =
      { initState with processedIds := initState.processedIds.insert "X",
                       scraped := initState.scraped + 4,
                       failed := initState.failed + 1,
                       attempts := initState.attempts + 4 } :=
  (c1_retry_bound (fun _ => (.hit "X", true)) "X" initState (fun _ _ => rfl)).1

/-! ## Claim C2 — transient fetch errors -/

/-- Claim C2, counterexample.  Oracle: every detail fetch hits a transient
HTTP error.  `fetchPropertyDetail` catches the error internally and returns
`null`, so the retry loop sees a null property and exits successfully on
the FIRST attempt: there is no retry (`attempts = 1`), the id is not
counted failed (`failed = 0`) and the final state is unchanged — refuting
"retried with backoff … ends in the failed set". -/
theorem c2_counterexample :
    fetchPropertyDetail .httpError = none
    ∧ enrichId (fun _ => (.httpError, false)) initState = ⟨[], 0, 0, 1⟩ := by
  refine ⟨rfl, ?_⟩
  simp [enrichId, enrichGo, fetchPropertyDetail, maxRetries, initState]

/-- Claim C2, amended: a transient error while fetching one id's detail
record is caught inside `fetchPropertyDetail` and surfaced as a null
record, so the enrichment attempt for that id completes WITHOUT retry in a
single attempt; the id ends in neither the processed set nor the failed
count (it is silently skipped and absent from the failure report). -/
theorem c2_fetch_error_swallowed (f : Nat → DetailResponse × Bool) (st : RunState)
    (h : (f 0).1 = .httpError) :
    enrichId f st = { st with attempts := st.attempts + 1 } := by
  rw [enrichId, enrichGo_none f 0 st (by decide) (by rw [h]; rfl)]

/-- Claim C2 witness: the amended statement evaluated on a concrete
always-erroring oracle. -/
theorem c2_fetch_error_swallowed_witness :
    enrichId (fun _ => (.httpError, true)) initState =
      { initState with attempts := initState.attempts + 1 } :=
  c2_fetch_error_swallowed (fun _ => (.httpError, true)) initState rfl

/-! ## Claim C3 — drain accounting -/

/-- Claim C3, counterexample.  A single discovered id whose detail fetch
errors transiently on every attempt: at drain the summary has `total = 1`
but `scraped = 0` and `failed = 0`, so `processed + failed ≠ totalDiscovered`. -/
theorem c3_counterexample :
    (fetchAllDetails (fun _ _ => (.httpError, false)) ["X"]).scraped
      + (fetchAllDetails (fun _ _ => (.httpError, false)) ["X"]).failed
      ≠ (fetchAllDetails (fun _ _ => (.httpError, false)) ["X"]).total := by
  simp [fetchAllDetails, processIds, enrichId, enrichGo, fetchPropertyDetail,
    maxRetries, initState]

/-- Helper for C3: a drain in which every discovered id's detail is fetched
on the first attempt and the sink never throws processes every id exactly
once. -/
theorem processIds_all_ok (oracle : String → Nat → DetailResponse × Bool) :
    ∀ (ids : List String) (st : RunState), ids.Nodup →
      (∀ i ∈ ids, i ∉ st.processedIds) →
      (∀ i ∈ ids, oracle i 0 = (.hit i, false)) →
      processIds oracle ids st =
        { st with processedIds := ids.reverse ++ st.processedIds,
                  scraped := st.scraped + ids.length,
                  attempts := st.attempts + ids.length } := by
  intro ids
  induction ids with
  | nil => intro st _ _ _; simp [processIds]
  | cons id rest ih =>
    intro st h1 h2 h3
    have hnotmem : id ∉ st.processedIds := h2 id (by simp)
    have hstep : enrichId (oracle id) st =
        { st with attempts := st.attempts + 1,
                  processedIds := id :: st.processedIds,
                  scraped := st.scraped + 1 } := by
      rw [enrichId, enrichGo_ok (oracle id) 0 st id (by decide)
        (by rw [h3 id (by simp)]; rfl) (by rw [h3 id (by simp)]),
        List.insert_of_not_mem hnotmem]
    have hrest : processIds oracle (id :: rest) st =
        processIds oracle rest
          { st with attempts := st.attempts + 1,
                    processedIds := id :: st.processedIds,
                    scraped := st.scraped + 1 } := by
      simp only [processIds, List.foldl_cons, if_neg hnotmem]
      rw [← hstep]
    rw [hrest, ih _ h1.of_cons
      (by
        intro i hi
        simp only [List.mem_cons, not_or]
        refine ⟨?_, h2 i (List.mem_cons_of_mem id hi)⟩
        rintro rfl
        exact (List.nodup_cons.mp h1).1 hi)
      (fun i hi => h3 i (List.mem_cons_of_mem id hi))]
    dsimp only
    simp only [RunState.mk.injEq, List.reverse_cons, List.append_assoc,
      List.cons_append, List.nil_append, List.length_cons]
    and_intros <;> first | rfl | trivial | omega

/-- Claim C3, amended: `processed + failed == totalDiscovered` does hold at
drain WHEN every unique discovered id's detail fetch returns a record and
the sink never errors; it fails in general because an id whose detail
fetch returns null (transient error or not-found) is counted in neither
set. -/
theorem c3_drain_accounting (oracle : String → Nat → DetailResponse × Bool)
    (ids : List String) (h1 : ids.Nodup)
    (h2 : ∀ i ∈ ids, oracle i 0 = (.hit i, false)) :
    (fetchAllDetails oracle ids).scraped + (fetchAllDetails oracle ids).failed
      = (fetchAllDetails oracle ids).total := by
  show (processIds oracle ids initState).scraped + (processIds oracle ids initState).failed
      = ids.length
  rw [processIds_all_ok oracle ids initState h1 (by simp [initState]) h2]
  simp [initState]

/-- Claim C3 witness: the amended statement on two concrete ids with a
well-behaved remote. -/
theorem c3_drain_accounting_witness :
    (fetchAllDetails (fun i _ => (.hit i, false)) ["A", "B"]).scraped
      + (fetchAllDetails (fun i _ => (.hit i, false)) ["A", "B"]).failed
      = (fetchAllDetails (fun i _ => (.hit i, false)) ["A", "B"]).total :=
  c3_drain_accounting (fun i _ => (.hit i, false)) ["A", "B"] (by decide)
    (fun i _ => rfl)

/-! ## Claim C9 — state exclusivity -/

/-- Claim C9, counterexample.  An id whose detail fetch succeeds but whose
sink throws on every attempt ends BOTH recorded in the processed set and
counted in `failed` — the states are not mutually exclusive. -/
theorem c9_counterexample :
    "X" ∈ (enrichId (fun _ => (.hit "X", true)) initState).processedIds
    ∧ (enrichId (fun _ => (.hit "X", true)) initState).failed = 1 := by
  constructor <;>
    simp [enrichId, enrichGo, fetchPropertyDetail, maxRetries, initState, List.insert]

/-- Claim C9, amended: when the sink never throws (e.g. no API key
configured) each id settles in exactly one attempt and in exactly one
state — skipped with nothing recorded if the fetch returned null, or
recorded processed — and the failed counter is untouched; moreover,
for arbitrary behaviours, `processed → failed` double-marking can occur
but `failed` is terminal and incremented at most once per id. -/
theorem c9_state_exclusive (f : Nat → DetailResponse × Bool) (st : RunState)
    (h : (f 0).2 = false) :
    ((fetchPropertyDetail (f 0).1 = none →
        enrichId f st = { st with attempts := st.attempts + 1 })
      ∧ (∀ pid, fetchPropertyDetail (f 0).1 = some pid →
        enrichId f st =
          { st with attempts := st.attempts + 1,
                    processedIds := st.processedIds.insert pid,
                    scraped := st.scraped + 1 })
      ∧ (enrichId f st).failed = st.failed)
    ∧ ∀ (g : Nat → DetailResponse × Bool) (st' : RunState),
        (enrichId g st').failed ≤ st'.failed + 1 := by
  refine ⟨⟨?_, ?_, ?_⟩, fun g st' => enrichGo_failed_le g 0 st'⟩
  · intro hf
    rw [enrichId, enrichGo_none f 0 st (by decide) hf]
  · intro pid hf
    rw [enrichId, enrichGo_ok f 0 st pid (by decide) hf h]
  · rw [enrichId]
    cases hf : fetchPropertyDetail (f 0).1 with
    | none => rw [enrichGo_none f 0 st (by decide) hf]
    | some pid => rw [enrichGo_ok f 0 st pid (by decide) hf h]

/-- Claim C9 witness: the amended statement evaluated at a concrete
no-throw oracle. -/
theorem c9_state_exclusive_witness :
    (enrichId (fun _ => (.emptyHits, false)) initState).failed = initState.failed :=
  (c9_state_exclusive (fun _ => (.emptyHits, false)) initState rfl).1.2.2

/-! ## Claim C4 — deduplication idempotence -/

/-- Claim C4: presenting the same ListingId to the deduplication step twice
(e.g. from two overlapping grid cells) enqueues it exactly once: the first
pass adds it to the discovery set and reports one new id, the second pass
filters it out and reports zero; the id occurs exactly once in the final
set, and an id already marked processed is skipped (not enriched again) by
the enrichment loop. -/
theorem c4_dedup_idempotent (store : List String) (id : String) (hid : id ∉ store) :
    addNewIds store [id] = (id :: store, 1)
    ∧ addNewIds (addNewIds store [id]).1 [id] = (id :: store, 0)
    ∧ (addNewIds (addNewIds store [id]).1 [id]).1.count id = 1
    ∧ ∀ (oracle : String → Nat → DetailResponse × Bool) (rest : List String)
        (st : RunState), id ∈ st.processedIds →
          processIds oracle (id :: rest) st = processIds oracle rest st := by
  have h1 : addNewIds store [id] = (id :: store, 1) := by
    simp [addNewIds, List.insert_of_not_mem hid, hid]
  refine ⟨h1, ?_, ?_, ?_⟩
  · rw [h1]
    simp [addNewIds]
  · rw [h1]
    simp [addNewIds, List.count_cons_self, List.count_eq_zero.mpr hid]
  · intro oracle rest st hmem
    simp only [processIds, List.foldl_cons, if_pos hmem]

/-- Claim C4 witness: concrete overlapping discovery of the same id. -/
theorem c4_dedup_idempotent_witness :
    addNewIds ["A"] ["B"] = ("B" :: ["A"], 1)
    ∧ addNewIds ("B" :: ["A"]) ["B"] = ("B" :: ["A"], 0)
    ∧ ("B" :: ["A"] : List String).count "B" = 1 := by
  have h := c4_dedup_idempotent ["A"] "B" (by decide)
  refine ⟨h.1, ?_, ?_⟩
  · have h2 := h.2.1
    rw [h.1] at h2
    exact h2
  · have h3 := h.2.2.1
    rw [h.2.1] at h3
    exact h3

/-! ## Claim C7 — empty region short-circuit -/

/-- Shared evaluation of `scrapeCell` on a region whose first page reports
a zero total: the early `return 0`. -/
theorem scrapeCell_total_zero (pages : Nat → Page) (store : List String)
    (h : (pages 0).total = 0) :
    scrapeCell pages store = ⟨0, store, [0], []⟩ := by
  simp [scrapeCell, h]

/-- Claim C7: a region whose first page reports `totalReported == 0` causes
exactly one fetch (offset 0 only), collects no ids, leaves the discovery
set untouched and returns 0 — discovery for the region ends immediately
without paging further. -/
theorem c7_empty_region (pages : Nat → Page) (store : List String)
    (h : (pages 0).total = 0) :
    scrapeCell pages store = ⟨0, store, [0], []⟩ :=
  scrapeCell_total_zero pages store h

/-- Claim C7 witness: a concrete empty region. -/
theorem c7_empty_region_witness :
    scrapeCell (fun _ => Page.mk [] 0) [] = ⟨0, [], [0], []⟩ :=
  c7_empty_region (fun _ => Page.mk [] 0) [] rfl

/-! ## Claim C8 — paging fetch count -/

/-- Closed form of the paging `while` loop at the source's page size 100. -/
theorem pageLoop_eq (pages : Nat → Page) (T : Nat) (hP : 0 < 100) :
    ∀ off, pageLoop pages 100 T hP off =
      (List.range ((T - off + 99) / 100)).map
        (fun k => (off + k * 100, (pages (off + k * 100)).ids)) := by
  intro off
  induction off using pageLoop.induct pages 100 T hP with
  | case1 off h ih =>
    rw [pageLoop]
    simp only [h, if_true]
    rw [ih]
    have hc : (T - off + 99) / 100 = (T - (off + 100) + 99) / 100 + 1 := by omega
    rw [hc, List.range_succ_eq_map]
    simp only [List.map_cons, List.map_map, Nat.zero_mul, Nat.add_zero]
    congr 1
    apply List.map_congr_left
    intro k _
    have harith : off + (k + 1) * 100 = off + 100 + k * 100 := by ring
    simp [Function.comp, harith]
  | case2 off h =>
    rw [pageLoop]
    simp only [h, if_false]
    have hc : (T - off + 99) / 100 = 0 := by omega
    rw [hc]
    rfl

/-- Claim C8, counterexample.  A region reporting `totalReported = 0` still
costs one fetch (the mandatory first page at offset 0), while
`ceil(T/P) = ceil(0/100) = 0` — so the driver does not issue exactly
`ceil(T/P)` fetches for every `T`. -/
theorem c8_counterexample :
    (scrapeCell (fun _ => Page.mk [] 0) []).offsets.length = 1
    ∧ (((fun _ => Page.mk ([] : List String) 0) 0).total + 100 - 1) / 100 = 0 := by
  constructor
  · rw [scrapeCell_total_zero (fun _ => Page.mk [] 0) [] rfl]
    rfl
  · rfl

/-- Claim C8, amended: the paging driver issues exactly
`max 1 (ceil(T/100))` fetches — `ceil(T/P)` for `T ≥ 1` plus the mandatory
first fetch when `T = 0` — at offsets `0, 100, 200, …`, and (for non-empty
regions) the accumulated id list is exactly the concatenation of the pages
returned at those offsets, in order. -/
theorem c8_paging (pages : Nat → Page) (store : List String) :
    (scrapeCell pages store).offsets =
      (List.range (max 1 (((pages 0).total + 99) / 100))).map (· * 100)
    ∧ ((pages 0).total ≠ 0 →
      (scrapeCell pages store).collected =
        ((scrapeCell pages store).offsets).flatMap (fun o => (pages o).ids)) := by
  by_cases hT : (pages 0).total = 0
  · refine ⟨?_, fun h => absurd hT h⟩
    rw [scrapeCell_total_zero pages store hT, hT]
    rfl
  · have hoff : (scrapeCell pages store).offsets =
        0 :: (List.range (((pages 0).total - 100 + 99) / 100)).map (fun k => 100 + k * 100) := by
      simp only [scrapeCell, hT, if_false]
      rw [pageLoop_eq pages (pages 0).total (by omega) 100]
      simp [List.map_map, Function.comp]
    constructor
    · rw [hoff]
      have hn : max 1 (((pages 0).total + 99) / 100)
          = ((pages 0).total - 100 + 99) / 100 + 1 := by omega
      rw [hn, List.range_succ_eq_map]
      simp only [List.map_cons, List.map_map, Nat.zero_mul]
      congr 1
      apply List.map_congr_left
      intro k _
      simp only [Function.comp_apply]
      omega
    · intro _
      rw [hoff]
      simp only [scrapeCell, hT, if_false]
      rw [pageLoop_eq pages (pages 0).total (by omega) 100]
      rw [List.flatMap_cons]
      simp only [List.map_map]
      have hdef : (List.map (fun k => 100 + k * 100)
            (List.range (((pages 0).total - 100 + 99) / 100))).flatMap
            (fun o => (pages o).ids)
          = ((List.map (fun k => 100 + k * 100)
            (List.range (((pages 0).total - 100 + 99) / 100))).map
            (fun o => (pages o).ids)).flatten := rfl
      rw [hdef, List.map_map]
      rfl

/-- Claim C8 witness: scenario B — a region reporting `totalReported = 250`
with page size 100 gets 3 fetches at offsets 0, 100, 200 and its pages' ids
concatenated in fetch order. -/
theorem c8_paging_witness :
    (scrapeCell
        (fun o => Page.mk (if o = 0 then ["a"] else if o = 100 then ["b"] else ["c"]) 250)
        []).offsets = [0, 100, 200]
    ∧ (scrapeCell
        (fun o => Page.mk (if o = 0 then ["a"] else if o = 100 then ["b"] else ["c"]) 250)
        []).collected = ["a", "b", "c"] := by
  have h := c8_paging
    (fun o => Page.mk (if o = 0 then ["a"] else if o = 100 then ["b"] else ["c"]) 250) []
  constructor
  · rw [h.1]
    rfl
  · rw [h.2 (by decide), h.1]
    rfl

/-! ## Grid lemmas -/

/-- The loop head takes exactly `ceil((stop - start) / step)` values. -/
theorem gridSteps_length (stop step : ℚ) (hstep : 0 < step) (start : ℚ) :
    (gridSteps stop step hstep start).length = (⌈(stop - start) / step⌉).toNat := by
  induction start using gridSteps.induct stop step hstep with
  | case1 start h ih =>
    rw [gridSteps]
    simp only [h, if_true, List.length_cons]
    rw [ih]
    have h1 : stop - (start + step) = (stop - start) - step := by ring
    have h2 : ((stop - start) - step) / step = (stop - start) / step - 1 := by
      rw [sub_div, div_self hstep.ne']
    have h3 : (0:ℚ) < (stop - start) / step := div_pos (by linarith) hstep
    have h4 : 0 < ⌈(stop - start) / step⌉ := Int.ceil_pos.mpr h3
    rw [h1, h2, Int.ceil_sub_one]
    omega
  | case2 start h =>
    rw [gridSteps]
    simp only [h, if_false, List.length_nil]
    have h1 : (stop - start) / step ≤ 0 :=
      div_nonpos_of_nonpos_of_nonneg (by linarith [not_lt.mp h]) hstep.le
    have h2 : ⌈(stop - start) / step⌉ ≤ 0 := by
      exact_mod_cast Int.ceil_le.mpr (by simpa using h1)
    omega

/-- Every point of `[start, stop]` lies in some step's `[v, v + step]`
interval. -/
theorem gridSteps_cover (stop step x : ℚ) (hstep : 0 < step) (h2 : x ≤ stop) :
    ∀ start, start ≤ x → start < stop →
      ∃ v ∈ gridSteps stop step hstep start, v ≤ x ∧ x ≤ v + step := by
  intro start
  induction start using gridSteps.induct stop step hstep with
  | case1 start h ih =>
    intro hx1 _
    have hcons : gridSteps stop step hstep start
        = start :: gridSteps stop step hstep (start + step) := by
      rw [gridSteps]; simp [h]
    by_cases hle : x ≤ start + step
    · exact ⟨start, by rw [hcons]; exact List.mem_cons_self _ _, hx1, hle⟩
    · push_neg at hle
      have h6 : start + step < stop := lt_of_lt_of_le hle h2
      obtain ⟨v, hv, hb⟩ := ih hle.le h6
      exact ⟨v, by rw [hcons]; exact List.mem_cons_of_mem _ hv, hb⟩
  | case2 start h =>
    intro _ h3
    exact absurd h3 h

/-- Length of the row-major pair raster. -/
theorem flatMap_pairs_length {α β : Type} (A : List α) (B : List β) :
    (A.flatMap (fun a => B.map (fun b => (a, b)))).length = A.length * B.length := by
  induction A with
  | nil => simp
  | cons a t ih => simp [ih]; ring

/-- An element of a list appears in its enumeration (at some index). -/
theorem mem_enumFrom_of_mem {α : Type} (a : α) :
    ∀ (l : List α) (n : Nat), a ∈ l → ∃ i, (i, a) ∈ l.enumFrom n := by
  intro l
  induction l with
  | nil => intro n h; cases h
  | cons b t ih =>
    intro n h
    rcases List.mem_cons.mp h with rfl | hmem
    · exact ⟨n, List.mem_cons_self _ _⟩
    · obtain ⟨i, hi⟩ := ih (n + 1) hmem
      exact ⟨i, List.mem_cons_of_mem _ hi⟩

theorem mem_enum_of_mem {α : Type} (a : α) (l : List α) (h : a ∈ l) :
    ∃ i, (i, a) ∈ l.enum :=
  mem_enumFrom_of_mem a l 0 h

/-! ## Claim C5 — grid cell count -/

/-- Claim C5: for every valid bounding box (north > south, east > west) and
positive cell size, `generateGrid` produces exactly
`ceil((north-south)/size) * ceil((east-west)/size)` cells; every cell's
annotated `total` (the precomputed `rows × cols`) equals the length of the
generated list; and every cell's viewport spans exactly `size × size`
degrees (so at the claimed input each cell is 0.5 × 0.5). -/
theorem c5_grid_count (b : Bounds) (size : ℚ) (hs : 0 < size)
    (hb1 : b.south < b.north) (hb2 : b.west < b.east) :
    (generateGrid b size hs).length
      = (⌈(b.north - b.south) / size⌉).toNat * (⌈(b.east - b.west) / size⌉).toNat
    ∧ (∀ c ∈ generateGrid b size hs, c.total = (generateGrid b size hs).length)
    ∧ (∀ c ∈ generateGrid b size hs,
        c.viewport.north - c.viewport.south = size
        ∧ c.viewport.east - c.viewport.west = size) := by
  have hlen : (generateGrid b size hs).length
      = (⌈(b.north - b.south) / size⌉).toNat * (⌈(b.east - b.west) / size⌉).toNat := by
    show ((((gridSteps b.north size hs b.south).flatMap
      (fun lat => (gridSteps b.east size hs b.west).map (fun lng => (lat, lng)))).enum).map _).length = _
    rw [List.length_map, List.enum_length, flatMap_pairs_length,
      gridSteps_length, gridSteps_length]
  refine ⟨hlen, ?_, ?_⟩
  · intro c hc
    obtain ⟨p, _, rfl⟩ := List.mem_map.mp hc
    rw [hlen]
  · intro c hc
    obtain ⟨p, _, rfl⟩ := List.mem_map.mp hc
    constructor <;> ring

/-- Claim C5 witness: scenario A — bounds `{north:1, south:0, east:0,
west:-1}` with cell size 0.5 give exactly 2 × 2 = 4 cells, each 0.5 × 0.5. -/
theorem c5_grid_count_witness :
    (generateGrid ⟨1, 0, 0, -1⟩ (1/2) (by norm_num)).length = 4
    ∧ ∀ c ∈ generateGrid ⟨1, 0, 0, -1⟩ (1/2) (by norm_num),
        c.viewport.north - c.viewport.south = 1/2
        ∧ c.viewport.east - c.viewport.west = 1/2 := by
  have h := c5_grid_count ⟨1, 0, 0, -1⟩ (1/2) (by norm_num) (by norm_num) (by norm_num)
  refine ⟨?_, h.2.2⟩
  rw [h.1]
  norm_num
  rfl

/-! ## Claim C6 — cell geometry and coverage -/

/-- Claim C6: every generated cell's viewport is
`[lat, lat + size] × [lng, lng + size]` (north = south + size,
east = west + size) with the cell's query centre at the viewport's
geometric midpoint, and every point of the bounding box lies inside at
least one generated cell's viewport. -/
theorem c6_grid_cover (b : Bounds) (size : ℚ) (hs : 0 < size)
    (hb1 : b.south < b.north) (hb2 : b.west < b.east) :
    (∀ c ∈ generateGrid b size hs,
        c.viewport.north = c.viewport.south + size
        ∧ c.viewport.east = c.viewport.west + size
        ∧ c.lat = (c.viewport.south + c.viewport.north) / 2
        ∧ c.lng = (c.viewport.west + c.viewport.east) / 2)
    ∧ ∀ la ln : ℚ, b.south ≤ la → la ≤ b.north → b.west ≤ ln → ln ≤ b.east →
        ∃ c ∈ generateGrid b size hs,
          c.viewport.south ≤ la ∧ la ≤ c.viewport.north
          ∧ c.viewport.west ≤ ln ∧ ln ≤ c.viewport.east := by
  constructor
  · intro c hc
    obtain ⟨p, _, rfl⟩ := List.mem_map.mp hc
    refine ⟨rfl, rfl, by ring, by ring⟩
  · intro la ln h1 h2 h3 h4
    obtain ⟨vla, hvla, hla1, hla2⟩ := gridSteps_cover b.north size la hs h2 b.south h1 hb1
    obtain ⟨vln, hvln, hln1, hln2⟩ := gridSteps_cover b.east size ln hs h4 b.west h3 hb2
    have hpair : (vla, vln) ∈ (gridSteps b.north size hs b.south).flatMap
        (fun lat => (gridSteps b.east size hs b.west).map (fun lng => (lat, lng))) :=
      List.mem_flatMap.mpr ⟨vla, hvla, List.mem_map.mpr ⟨vln, hvln, rfl⟩⟩
    obtain ⟨i, hip⟩ := mem_enum_of_mem _ _ hpair
    exact ⟨_, List.mem_map.mpr ⟨(i, (vla, vln)), hip, rfl⟩, hla1, hla2, hln1, hln2⟩

/-- Claim C6 witness: the point (1/4, −1/4) inside scenario A's bounds is
covered by some generated cell's viewport. -/
theorem c6_grid_cover_witness :
    ∃ c ∈ generateGrid ⟨1, 0, 0, -1⟩ (1/2) (by norm_num),
      c.viewport.south ≤ 1/4 ∧ (1/4 : ℚ) ≤ c.viewport.north
      ∧ c.viewport.west ≤ -1/4 ∧ (-1/4 : ℚ) ≤ c.viewport.east :=
  (c6_grid_cover ⟨1, 0, 0, -1⟩ (1/2) (by norm_num) (by norm_num) (by norm_num)).2
    (1/4) (-1/4) (by norm_num) (by norm_num) (by norm_num) (by norm_num)

/-! ## Claim C10 — city fallback -/

/-- Claim C10, counterexample.  The functional part of the claim is right
(missing slugs fall back to São Paulo) but the count is not: 65, not 63, of
the 73 configured cities have no `CITY_COORDS` entry after appending
`-brasil` — only 8 are present, since two of the table's 10 entries
(Fortaleza, Recife) are not in `ALL_CITIES`. -/
theorem c10_counterexample :
    ALL_CITIES.length = 73
    ∧ (ALL_CITIES.filter
        (fun s => (CITY_COORDS.lookup (s ++ "-brasil")).isNone)).length ≠ 63
    ∧ (ALL_CITIES.filter
        (fun s => (CITY_COORDS.lookup (s ++ "-brasil")).isNone)).length = 65 := by
  refine ⟨by decide, by decide, by decide⟩

/-- Claim C10, amended: for every city slug with no `CITY_COORDS` entry
after appending `-brasil`, `getCityInfo` returns São Paulo's coordinates
and viewport, so the id-discovery query for any such city is issued against
São Paulo's centre and viewport; 65 of the 73 configured cities are in this
situation. -/
theorem c10_fallback (slug : String)
    (h : CITY_COORDS.lookup (slug ++ "-brasil") = none) :
    getCityInfo slug = CITY_COORDS.lookup "sao-paulo-sp-brasil"
    ∧ getCityInfo slug
      = some ⟨-23.55052, -46.633309, ⟨-23.4, -23.75, -46.3, -46.85⟩⟩
    ∧ (ALL_CITIES.filter
        (fun s => (CITY_COORDS.lookup (s ++ "-brasil")).isNone)).length = 65 := by
  have h1 : getCityInfo slug = CITY_COORDS.lookup "sao-paulo-sp-brasil" := by
    simp [getCityInfo, h]
  refine ⟨h1, ?_, by decide⟩
  rw [h1]
  rfl

/-- Claim C10 witness: `americana-sp` (no table entry) resolves to São
Paulo's coordinates. -/
theorem c10_fallback_witness :
    getCityInfo "americana-sp"
      = some ⟨-23.55052, -46.633309, ⟨-23.4, -23.75, -46.3, -46.85⟩⟩ :=
  (c10_fallback "americana-sp" (by decide)).2.1

end QuintoAndar
